import Mathlib

/-!
Verification of the sshmenuc synchronization engine
(`sshmenuc/sync/crypto.py`, `sshmenuc/sync/git_remote.py`,
`sshmenuc/sync/sync_manager.py`, `sshmenuc/sync/passphrase_cache.py`).

The embedding is shallow.  The configuration document is an opaque type
parameter `D` (the sync layer treats the document as an opaque JSON blob);
JSON serialization of the document, SHA-256, Scrypt and AES-GCM are
modelled as ideal injective codecs (serialization is lossless, the hash is
collision-free, distinct passphrase and salt derive distinct keys, and the
AEAD tag check succeeds exactly when key and IV match the ones used at
encryption time).  Subprocess-backed git operations and the interactive
prompts are modelled as explicit oracle inputs, exactly as the repository's
own unit tests stub them.  Local disk writes can be made to fail through
explicit oracle booleans mirroring the `except OSError` handlers.
-/

namespace Sshmenuc

/-- The byte strings handled by `crypto.py` after base64 decoding: either
plain raw bytes (salts, IVs, or junk ciphertext never produced by
`AESGCM.encrypt`, which no key authenticates), or an authentic AES-GCM
`ciphertext || tag` token recording the passphrase and salt that derived
its key, the IV, and the encrypted document (`json.dumps(data, indent=4)`
of a document `d` is represented by `d` itself: the document serializer is
ideal and lossless). -/
inductive BytesTok (D : Type) where
  | raw : List Nat → BytesTok D
  | gcm : String → BytesTok D → BytesTok D → D → BytesTok D
deriving DecidableEq, Repr

mutual
/-- A Python JSON value at the envelope layer, as produced by `json.loads`.
Strings are split by whether `base64.b64decode` succeeds on them:
`b64 t` is a string that decodes to the byte string `t`, `strLit s` is a
string on which decoding raises `binascii.Error`.  Objects carry an
association list of fields.  (JSON arrays, floats and booleans inside
envelopes are not represented; no envelope produced by `encrypt_config`
contains them.) -/
inductive EnvVal (D : Type) where
  | obj : EnvFields D → EnvVal D
  | int : Int → EnvVal D
  | b64 : BytesTok D → EnvVal D
  | strLit : String → EnvVal D
  | null : EnvVal D

inductive EnvFields (D : Type) where
  | nil : EnvFields D
  | cons : String → EnvVal D → EnvFields D → EnvFields D
end

mutual
/-- Boolean structural equality on envelope values. -/
def EnvVal.beq {D : Type} [DecidableEq D] : EnvVal D → EnvVal D → Bool
  | .obj a, .obj b => EnvFields.beq a b
  | .int a, .int b => a == b
  | .b64 a, .b64 b => a == b
  | .strLit a, .strLit b => a == b
  | .null, .null => true
  | _, _ => false

def EnvFields.beq {D : Type} [DecidableEq D] : EnvFields D → EnvFields D → Bool
  | .nil, .nil => true
  | .cons k v r, .cons k' v' r' => k == k' && EnvVal.beq v v' && EnvFields.beq r r'
  | _, _ => false
end

mutual
/-- The boolean equality on envelope values agrees with propositional
equality. -/
theorem EnvVal.beq_iff {D : Type} [DecidableEq D] :
    ∀ (a b : EnvVal D), EnvVal.beq a b = true ↔ a = b
  | .obj a, .obj b => by simp [EnvVal.beq, EnvFields.beq_iff_fields a b]
  | .int a, .int b => by simp [EnvVal.beq]
  | .b64 a, .b64 b => by simp [EnvVal.beq]
  | .strLit a, .strLit b => by simp [EnvVal.beq]
  | .null, .null => by simp [EnvVal.beq]
  | .obj _, .int _ => by simp [EnvVal.beq]
  | .obj _, .b64 _ => by simp [EnvVal.beq]
  | .obj _, .strLit _ => by simp [EnvVal.beq]
  | .obj _, .null => by simp [EnvVal.beq]
  | .int _, .obj _ => by simp [EnvVal.beq]
  | .int _, .b64 _ => by simp [EnvVal.beq]
  | .int _, .strLit _ => by simp [EnvVal.beq]
  | .int _, .null => by simp [EnvVal.beq]
  | .b64 _, .obj _ => by simp [EnvVal.beq]
  | .b64 _, .int _ => by simp [EnvVal.beq]
  | .b64 _, .strLit _ => by simp [EnvVal.beq]
  | .b64 _, .null => by simp [EnvVal.beq]
  | .strLit _, .obj _ => by simp [EnvVal.beq]
  | .strLit _, .int _ => by simp [EnvVal.beq]
  | .strLit _, .b64 _ => by simp [EnvVal.beq]
  | .strLit _, .null => by simp [EnvVal.beq]
  | .null, .obj _ => by simp [EnvVal.beq]
  | .null, .int _ => by simp [EnvVal.beq]
  | .null, .b64 _ => by simp [EnvVal.beq]
  | .null, .strLit _ => by simp [EnvVal.beq]

theorem EnvFields.beq_iff_fields {D : Type} [DecidableEq D] :
    ∀ (a b : EnvFields D), EnvFields.beq a b = true ↔ a = b
  | .nil, .nil => by simp [EnvFields.beq]
  | .cons k v r, .cons k' v' r' => by
      simp [EnvFields.beq, EnvVal.beq_iff v v', EnvFields.beq_iff_fields r r', and_assoc]
  | .nil, .cons _ _ _ => by simp [EnvFields.beq]
  | .cons _ _ _, .nil => by simp [EnvFields.beq]
end

instance {D : Type} [DecidableEq D] : DecidableEq (EnvVal D) := fun a b =>
  decidable_of_iff (EnvVal.beq a b = true) (EnvVal.beq_iff a b)

instance {D : Type} [DecidableEq D] : DecidableEq (EnvFields D) := fun a b =>
  decidable_of_iff (EnvFields.beq a b = true) (EnvFields.beq_iff_fields a b)

deriving instance DecidableEq for Except

/-- The encrypted byte strings passed to `decrypt_config` and produced by
`encrypt_config`: either bytes whose UTF-8 text `json.loads` parses to the
envelope value `v`, or bytes on which `json.loads` (or UTF-8 decoding)
raises, tagged by an arbitrary identifier. -/
inductive EncBytes (D : Type) where
  | jsonVal : EnvVal D → EncBytes D
  | invalid : Nat → EncBytes D
deriving DecidableEq

/-- Python-dict key lookup (`d[k]` / `d.get(k)`) on the parsed field list. -/
def getField {D : Type} : EnvFields D → String → Option (EnvVal D)
  | .nil, _ => none
  | .cons k v r, key => if k = key then some v else getField r key

/-- The error kinds `decrypt_config` can produce: `formatError` is the
`ValueError` raised for malformed or unsupported envelopes, `authError` is
`cryptography.exceptions.InvalidTag` from the AEAD tag check, and
`attributeError` is the uncaught `AttributeError` raised by
`envelope.get("version")` when `json.loads` returned a non-dict. -/
inductive CryptoErr where
  | formatError : String → CryptoErr
  | authError : CryptoErr
  | attributeError : CryptoErr
deriving DecidableEq, Repr

/-- The Scrypt-derived AES key (`_derive_key`): ideal KDF, the key is
determined by, and determines, the passphrase and salt. -/
structure KeyTok (D : Type) where
  passphrase : String
  salt : BytesTok D
deriving DecidableEq, Repr

/-- `_derive_key(passphrase, salt)` of `crypto.py` (the fixed cost
parameters n, r, p do not vary and are omitted from the key token). -/
def derive_key {D : Type} (passphrase : String) (salt : BytesTok D) : KeyTok D :=
  ⟨passphrase, salt⟩

/-- `AESGCM(key).encrypt(iv, plaintext, None)` with
`plaintext = json.dumps(data, indent=4).encode()`: produces the
ciphertext-with-tag token. -/
def aesgcm_encrypt {D : Type} (key : KeyTok D) (iv : BytesTok D) (data : D) : BytesTok D :=
  .gcm key.passphrase key.salt iv data

/-- `AESGCM(key).decrypt(iv, ciphertext, None)` followed by
`json.loads(plaintext.decode())`: the tag check succeeds exactly when the
ciphertext is an authentic token encrypted under the same key and IV;
raw bytes never authenticate under any key. -/
def aesgcm_decrypt {D : Type} [DecidableEq D] (key : KeyTok D) (iv : BytesTok D) :
    BytesTok D → Except CryptoErr D
  | .gcm p s i d =>
      if p = key.passphrase ∧ s = key.salt ∧ i = iv then .ok d else .error .authError
  | .raw _ => .error .authError

/-- Scrypt cost parameter n of `crypto.py`. -/
def SCRYPT_N : Int := 32768
/-- Scrypt cost parameter r of `crypto.py`. -/
def SCRYPT_R : Int := 8
/-- Scrypt cost parameter p of `crypto.py`. -/
def SCRYPT_P : Int := 1

/-- `encrypt_config(data, passphrase)` of `crypto.py`.  The fresh
`os.urandom` draws for salt and IV are passed explicitly.  Produces the
versioned envelope with exactly the fields the source builds, in source
order. -/
def encrypt_config {D : Type} (data : D) (passphrase : String)
    (salt iv : List Nat) : EncBytes D :=
  let key := derive_key passphrase (.raw salt)
  let ciphertext := aesgcm_encrypt key (.raw iv) data
  .jsonVal (.obj
    (.cons "version" (.int 1)
    (.cons "algo" (.strLit "AES-256-GCM")
    (.cons "kdf" (.strLit "scrypt")
    (.cons "kdf_params" (.obj
      (.cons "n" (.int SCRYPT_N)
      (.cons "r" (.int SCRYPT_R)
      (.cons "p" (.int SCRYPT_P)
      (.cons "salt" (.b64 (.raw salt)) .nil)))))
    (.cons "iv" (.b64 (.raw iv))
    (.cons "ciphertext" (.b64 ciphertext) .nil)))))))

/-- The field-extraction try-block of `decrypt_config`
(`salt = b64decode(envelope["kdf_params"]["salt"])`, then `iv`, then
`ciphertext`): `none` models any exception inside the block (`KeyError`,
`TypeError`, `binascii.Error`), which the source converts to the
`ValueError` for malformed fields. -/
def extract_envelope_fields {D : Type} (fields : EnvFields D) :
    Option (BytesTok D × BytesTok D × BytesTok D) :=
  match getField fields "kdf_params" with
  | some (.obj kp) =>
      match getField kp "salt" with
      | some (.b64 s) =>
          match getField fields "iv" with
          | some (.b64 i) =>
              match getField fields "ciphertext" with
              | some (.b64 c) => some (s, i, c)
              | _ => none
          | _ => none
      | _ => none
  | _ => none

/-- `decrypt_config(enc_bytes, passphrase)` of `crypto.py`:
unparseable bytes raise the format `ValueError`; a parsed non-dict raises
an uncaught `AttributeError` at `envelope.get("version")`; a dict whose
`version` field is not the integer 1 raises the unsupported-version
`ValueError`; a failure anywhere in field extraction raises the
malformed-fields `ValueError`; finally the Scrypt key is derived from the
embedded salt and the AEAD decryption either fails the tag check
(`InvalidTag`) or returns the decrypted document. -/
def decrypt_config {D : Type} [DecidableEq D] (enc : EncBytes D)
    (passphrase : String) : Except CryptoErr D :=
  match enc with
  | .invalid _ => .error (.formatError "Invalid encrypted config format")
  | .jsonVal (.obj fields) =>
      if getField fields "version" = some (.int 1) then
        match extract_envelope_fields fields with
        | none => .error (.formatError "Malformed encrypted config fields")
        | some (s, i, c) => aesgcm_decrypt (derive_key passphrase s) i c
      else .error (.formatError "Unsupported encrypted config version")
  | .jsonVal _ => .error .attributeError

/-- Spec-side predicate (from the spec's words, for comparison with the
source): the input bytes parse as JSON but to something other than an
object, so they are unparseable as an envelope without being a JSON parse
failure. -/
def spec_parses_to_non_object {D : Type} : EncBytes D → Bool
  | .jsonVal (.obj _) => false
  | .jsonVal _ => true
  | .invalid _ => false

/-- Spec-side definition (from the spec's words): a well-formed version-1
envelope, returning its embedded salt, IV and ciphertext byte strings. -/
def spec_envelope_fields {D : Type} [DecidableEq D] :
    EncBytes D → Option (BytesTok D × BytesTok D × BytesTok D)
  | .jsonVal (.obj fields) =>
      if getField fields "version" = some (.int 1) then
        extract_envelope_fields fields
      else none
  | _ => none

/-- Spec-side predicate (from the spec's words): the input is malformed as
an envelope — unparseable as JSON, a JSON object of unsupported version,
or a JSON object with missing or malformed envelope fields — excluding the
non-object JSON parses. -/
def spec_format_bad {D : Type} [DecidableEq D] (enc : EncBytes D) : Bool :=
  (spec_envelope_fields enc).isNone && !spec_parses_to_non_object enc

/-- Spec-side predicate (from the spec's words): the input is a well-formed
version-1 envelope whose AEAD tag check fails under the key derived from
the given passphrase and the embedded salt. -/
def spec_tag_fails {D : Type} [DecidableEq D] (enc : EncBytes D) (p : String) : Bool :=
  match spec_envelope_fields enc with
  | some (s, i, c) =>
      match aesgcm_decrypt (derive_key p s) i c with
      | .error .authError => true
      | _ => false
  | none => false

/-- C3: decrypting the envelope produced by encrypting a document `d`
under passphrase `p`, with the same passphrase `p`, returns exactly `d` —
for every document, passphrase, and random salt and IV draw. -/
theorem decrypt_config_encrypt_config_roundtrip {D : Type} [DecidableEq D]
    (d : D) (p : String) (salt iv : List Nat) :
    decrypt_config (encrypt_config d p salt iv) p = .ok d := by
  simp [decrypt_config, encrypt_config, extract_envelope_fields, getField,
    aesgcm_encrypt, aesgcm_decrypt, derive_key]

/-- C7 counterexample: the bytes `b"5"` are unparseable as an envelope
(they parse as the JSON number 5), yet `decrypt_config` does not fail with
the format-error kind: it raises an uncaught `AttributeError` at
`envelope.get("version")`, a third error kind distinct from both
`FormatError` and `AuthError`. -/
theorem decrypt_config_non_object_raises_attribute_error :
    decrypt_config (D := Nat) (.jsonVal (.int 5)) "pw" = .error .attributeError :=
  rfl

/-- C7 amended: `decrypt_config` fails with `FormatError` exactly on inputs
that are unparseable as JSON or that parse to a JSON object which is not a
well-formed version-1 envelope; inputs that parse to a non-object JSON
value instead raise an uncaught `AttributeError`; and it fails with
`AuthError` exactly when the input is a well-formed version-1 envelope
whose AEAD tag check fails — the three kinds are never conflated. -/
theorem decrypt_config_error_kinds {D : Type} [DecidableEq D]
    (enc : EncBytes D) (p : String) :
    ((∃ msg, decrypt_config enc p = .error (.formatError msg)) ↔
        spec_format_bad enc = true)
    ∧ (decrypt_config enc p = .error .attributeError ↔
        spec_parses_to_non_object enc = true)
    ∧ (decrypt_config enc p = .error .authError ↔
        spec_tag_fails enc p = true) := by
  match enc with
  | .invalid n =>
      simp [decrypt_config, spec_format_bad, spec_parses_to_non_object,
        spec_envelope_fields, spec_tag_fails]
  | .jsonVal (.int _) | .jsonVal (.b64 _) | .jsonVal (.strLit _) | .jsonVal .null =>
      simp [decrypt_config, spec_format_bad, spec_parses_to_non_object,
        spec_envelope_fields, spec_tag_fails]
  | .jsonVal (.obj fields) =>
      by_cases hv : getField fields "version" = some (.int 1)
      · match he : extract_envelope_fields fields with
        | none =>
            simp [decrypt_config, spec_format_bad, spec_parses_to_non_object,
              spec_envelope_fields, spec_tag_fails, hv, he]
        | some (s, i, c) =>
            match hd : aesgcm_decrypt (derive_key p s) i c with
            | .ok d =>
                simp [decrypt_config, spec_format_bad, spec_parses_to_non_object,
                  spec_envelope_fields, spec_tag_fails, hv, he, hd]
            | .error e =>
                have he' : e = .authError := by
                  cases c with
                  | raw b =>
                      have h2 := hd
                      simp [aesgcm_decrypt] at h2
                      exact h2.symm
                  | gcm q s' i' d =>
                      by_cases hk : q = p ∧ s' = s ∧ i' = i
                      · simp [aesgcm_decrypt, derive_key, hk] at hd
                      · have h2 := hd
                        simp [aesgcm_decrypt, derive_key, hk] at h2
                        exact h2.symm
                subst he'
                simp [decrypt_config, spec_format_bad, spec_parses_to_non_object,
                  spec_envelope_fields, spec_tag_fails, hv, he, hd]
      · simp [decrypt_config, spec_format_bad, spec_parses_to_non_object,
          spec_envelope_fields, spec_tag_fails, hv]

/-- Outcome of the final `git push` subprocess call in `push_remote`:
returncode 0, a nonzero returncode (non-fast-forward, auth or network
rejection), or a raised `TimeoutExpired`/`FileNotFoundError`/`OSError`. -/
inductive PushOutcome where
  | ok : PushOutcome
  | rejected : PushOutcome
  | excRaised : PushOutcome
deriving DecidableEq, Repr

/-- The dedicated local git mirror (`sync_repo_path`): the committed
content of the single blob file at HEAD (`none` when no commit holds the
file yet) and the number of commits. -/
structure Mirror (D : Type) where
  headBlob : Option (EncBytes D)
  commits : Nat
deriving DecidableEq

/-- Failure-injection oracle for `push_remote`: whether the blob-file
write raises `OSError`, whether each git subprocess raises
(`TimeoutExpired`/`OSError`), and the outcome of the final push. -/
structure PushEnv where
  writeExc : Bool
  addExc : Bool
  statusExc : Bool
  commitExc : Bool
  pushOutcome : PushOutcome
deriving DecidableEq, Repr

/-- Result of `push_remote`: the returned boolean, the mirror afterwards,
and whether the remote was contacted (a `git push` subprocess ran). -/
structure PushResult (D : Type) where
  ret : Bool
  mirror : Mirror D
  contactedRemote : Bool
deriving DecidableEq

/-- `push_remote(sync_cfg, enc_bytes)` of `git_remote.py`: write the blob
file (an `OSError` is caught and returns False), `git add`, check
`git status --porcelain` — empty output, which happens exactly when the
written bytes equal the committed blob at HEAD, short-circuits with True
and no commit — otherwise commit (its returncode is ignored) and push;
a nonzero push returncode returns False, and every raised
`TimeoutExpired`/`FileNotFoundError`/`OSError` is caught by the final
handler and returns False, so the function never raises. -/
def push_remote {D : Type} [DecidableEq D] (env : PushEnv) (m : Mirror D)
    (encBytes : EncBytes D) : PushResult D :=
  if env.writeExc then ⟨false, m, false⟩
  else if env.addExc then ⟨false, m, false⟩
  else if env.statusExc then ⟨false, m, false⟩
  else if m.headBlob = some encBytes then ⟨true, m, false⟩
  else if env.commitExc then ⟨false, m, false⟩
  else
    let m' : Mirror D := ⟨some encBytes, m.commits + 1⟩
    match env.pushOutcome with
    | .ok => ⟨true, m', true⟩
    | .rejected => ⟨false, m', true⟩
    | .excRaised => ⟨false, m', true⟩

/-- C8: after writing the blob file, `push_remote` returns success without
creating any commit or contacting the remote whenever the mirror's working
tree is unchanged (the written content equals the committed blob); and for
every rejection of the push (nonzero returncode, or a timeout exception)
and for every earlier injected subprocess exception, failure is reported
by the returned boolean — in the model every execution yields a returned
`PushResult`, so no exception escapes. -/
theorem push_remote_noop_and_rejections {D : Type} [DecidableEq D]
    (env : PushEnv) (m : Mirror D) (b : EncBytes D) :
    (env.writeExc = false → env.addExc = false → env.statusExc = false →
      m.headBlob = some b →
      push_remote env m b = ⟨true, m, false⟩)
    ∧ (env.writeExc = false → env.addExc = false → env.statusExc = false →
        env.commitExc = false → m.headBlob ≠ some b → env.pushOutcome ≠ .ok →
        push_remote env m b = ⟨false, ⟨some b, m.commits + 1⟩, true⟩)
    ∧ ((env.writeExc = true ∨ env.addExc = true ∨ env.statusExc = true) →
        push_remote env m b = ⟨false, m, false⟩) := by
  refine ⟨?_, ?_, ?_⟩
  · intro h1 h2 h3 h4
    simp [push_remote, h1, h2, h3, h4]
  · intro h1 h2 h3 h4 h5 h6
    cases ho : env.pushOutcome
    · exact absurd ho h6
    · simp [push_remote, h1, h2, h3, h4, h5, ho]
    · simp [push_remote, h1, h2, h3, h4, h5, ho]
  · rintro (h | h | h) <;> simp [push_remote, h]

/-- C8 witness: the no-op short-circuit, a rejected push, and an injected
write exception, each at concrete inputs. -/
theorem push_remote_noop_and_rejections_witness :
    push_remote (D := Nat) ⟨false, false, false, false, .ok⟩
        ⟨some (.invalid 7), 3⟩ (.invalid 7) = ⟨true, ⟨some (.invalid 7), 3⟩, false⟩
    ∧ push_remote (D := Nat) ⟨false, false, false, false, .rejected⟩
        ⟨none, 0⟩ (.invalid 7) = ⟨false, ⟨some (.invalid 7), 1⟩, true⟩
    ∧ push_remote (D := Nat) ⟨true, false, false, false, .ok⟩
        ⟨none, 0⟩ (.invalid 7) = ⟨false, ⟨none, 0⟩, false⟩ :=
  ⟨(push_remote_noop_and_rejections ⟨false, false, false, false, .ok⟩
      ⟨some (.invalid 7), 3⟩ (.invalid 7)).1 rfl rfl rfl rfl,
   (push_remote_noop_and_rejections ⟨false, false, false, false, .rejected⟩
      ⟨none, 0⟩ (.invalid 7)).2.1 rfl rfl rfl rfl (by decide) (by decide),
   (push_remote_noop_and_rejections ⟨true, false, false, false, .ok⟩
      ⟨none, 0⟩ (.invalid 7)).2.2 (Or.inl rfl)⟩

/-- The `SyncState` enum of `sync_manager.py`. -/
inductive SyncState where
  | NO_SYNC : SyncState
  | SYNC_OK : SyncState
  | SYNC_OFFLINE : SyncState
  | LOCAL_ONLY : SyncState
deriving DecidableEq, Repr

/-- The `PullStatus` enum of `git_remote.py` (`CONFLICT` is declared but
never produced by `pull_remote`; `startup_pull` routes it like `OK`). -/
inductive PullStatus where
  | OK : PullStatus
  | NO_CHANGE : PullStatus
  | CONFLICT : PullStatus
  | OFFLINE : PullStatus
deriving DecidableEq, Repr

/-- The value returned by `_resolve_conflict`: one of the strings
"local", "remote", "abort". -/
inductive Resolution where
  | useLocal : Resolution
  | useRemote : Resolution
  | abort : Resolution
deriving DecidableEq, Repr

/-- The raw content of the plaintext `config.json` file: either the bytes
`json.dumps(d, indent=4)` of a document `d`, or bytes `json.load` cannot
parse, tagged by an arbitrary identifier. -/
inductive ConfigBytes (D : Type) where
  | doc : D → ConfigBytes D
  | invalid : Nat → ConfigBytes D
deriving DecidableEq, Repr

/-- A value of `last_config_hash` / `_hash_config_file()`: the empty
string (never synced, or unreadable file), or the SHA-256 hex digest of a
file content — the hash is ideal, so distinct contents have distinct
digests and a digest is never the empty string. -/
inductive HashStr (D : Type) where
  | empty : HashStr D
  | digest : ConfigBytes D → HashStr D
deriving DecidableEq, Repr

/-- The sync-profile dict (`sync.json` / the injected override), restricted
to the keys `sync_manager.py` reads and writes.  `auto_pull`/`auto_push`
are `none` when the key is absent (the source reads them with
`.get(key, True)`); an absent `last_config_hash` and the empty string are
both `HashStr.empty`, matching `.get("last_config_hash", "")`. -/
structure SyncCfg (D : Type) where
  remote_url : String
  auto_pull : Option Bool
  auto_push : Option Bool
  last_config_hash : HashStr D
  last_sync : Option Nat
  last_sync_status : Option String
deriving DecidableEq, Repr

/-- The state a `SyncManager` run acts on: the plaintext `config.json`
(`none` when absent), the local encrypted backup `config.json + ".enc"`,
the sync profile (the in-memory `self._sync_cfg`, whose writes
`_save_sync_meta` mirrors to disk), the process-wide passphrase cache of
`passphrase_cache.py`, and `self._state`. -/
structure World (D : Type) where
  config : Option (ConfigBytes D)
  encBackup : Option (EncBytes D)
  syncCfg : SyncCfg D
  cache : Option String
  state : SyncState
deriving DecidableEq

/-- Oracle inputs for one `startup_pull` / `post_save_push` run: outcomes
of the subprocess-backed git calls, the passphrase the user would type at
an interactive prompt, the conflict-resolution choice, the current
timestamp, the `os.urandom` draws for the at most two `encrypt_config`
calls, and `OSError` injection for the local file writes. -/
structure SyncEnv (D : Type) where
  reachable : Bool
  ensureOk : Bool
  pullStatus : PullStatus
  pullBytes : Option (EncBytes D)
  typed : String
  choice : Resolution
  now : Nat
  pushOk : Bool
  saltA : List Nat
  ivA : List Nat
  saltB : List Nat
  ivB : List Nat
  writeConfigOk : Bool
  writeEncOk : Bool
deriving DecidableEq

/-- Observable outcome of a `SyncManager` run: the final world, the
returned/assigned `SyncState`, and effect counters — whether
`is_remote_reachable`, `ensure_repo_initialized` and `pull_remote` were
called, whether an interactive `getpass` prompt occurred, and how many
times `_resolve_conflict` and `push_remote` were invoked. -/
structure SyncRun (D : Type) where
  w : World D
  ret : SyncState
  probed : Bool
  ensured : Bool
  prompted : Bool
  pulled : Bool
  resolverCalls : Nat
  pushCalls : Nat
deriving DecidableEq

/-- `_hash_config_file`: the SHA-256 hex digest of the config file bytes,
or the empty string when the file cannot be read. -/
def hash_config_file {D : Type} : Option (ConfigBytes D) → HashStr D
  | none => .empty
  | some b => .digest b

/-- `_read_config`: parse the plaintext `config.json`; `none` models the
caught `FileNotFoundError`/`JSONDecodeError`. -/
def read_config {D : Type} : Option (ConfigBytes D) → Option D
  | some (.doc d) => some d
  | _ => none

/-- `get_or_prompt` of `passphrase_cache.py`: return the cached passphrase,
or prompt once (`getpass`), cache what was typed, and return it.  Yields
the passphrase, the cache afterwards, and whether a prompt occurred. -/
def get_or_prompt (cache : Option String) (typed : String) :
    String × Option String × Bool :=
  match cache with
  | some p => (p, some p, false)
  | none => (typed, some typed, true)

/-- `_save_sync_meta(local_hash, status)`: set `last_config_hash`,
`last_sync` (current UTC timestamp) and `last_sync_status` on the profile
(the in-memory dict always; the disk write only logs on failure). -/
def save_sync_meta {D : Type} (cfg : SyncCfg D) (h : HashStr D) (status : String)
    (now : Nat) : SyncCfg D :=
  { cfg with last_config_hash := h, last_sync := some now,
             last_sync_status := some status }

/-- `_update_local_enc_backup`: no-op returning False when no passphrase is
cached and no remote is configured; otherwise obtain the passphrase via
`get_or_prompt` (this prompts interactively when the cache is empty), read
the plaintext config (False when unreadable), encrypt it with a fresh salt
and IV and write the `.enc` backup (False when the write raises).  Returns
the success flag, the world afterwards, and whether a prompt occurred. -/
def update_local_enc_backup {D : Type} [DecidableEq D] (env : SyncEnv D)
    (w : World D) : Bool × World D × Bool :=
  if w.cache.isNone && w.syncCfg.remote_url = "" then (false, w, false)
  else
    let r := get_or_prompt w.cache env.typed
    let w' := { w with cache := r.2.1 }
    match read_config w'.config with
    | none => (false, w', r.2.2)
    | some d =>
        if env.writeEncOk then
          (true, { w' with encBackup := some (encrypt_config d r.1 env.saltA env.ivA) },
           r.2.2)
        else (false, w', r.2.2)

/-- `_push_to_remote(passphrase)`: read the plaintext config (False when
unreadable, without calling `push_remote`), encrypt it and call
`push_remote`, whose outcome the oracle supplies.  Returns the boolean
result and the number of `push_remote` invocations (0 or 1). -/
def push_to_remote {D : Type} (env : SyncEnv D) (w : World D) : Bool × Nat :=
  match read_config w.config with
  | none => (false, 0)
  | some _ => (env.pushOk, 1)

/-- `_handle_offline`: `SYNC_OFFLINE` when the local `.enc` backup file
exists, `LOCAL_ONLY` otherwise. -/
def handle_offline {D : Type} (w : World D) : World D × SyncState :=
  if w.encBackup.isSome then ({ w with state := .SYNC_OFFLINE }, .SYNC_OFFLINE)
  else ({ w with state := .LOCAL_ONLY }, .LOCAL_ONLY)

/-- `startup_pull` of `sync_manager.py`, translated branch by branch:
no remote url → NO_SYNC; `auto_pull` false → SYNC_OK with no further
action; unreachable or failed initialization → the offline fallback;
then obtain the passphrase (one cached prompt) and pull; OFFLINE → the
offline fallback; NO_CHANGE or no pulled bytes → SYNC_OK; a decryption
failure of any kind (`except Exception`) → SYNC_OFFLINE; equal local and
stored hashes → overwrite plaintext with the remote document, refresh the
backup, persist hash and timestamp, SYNC_OK; different hashes → invoke
`_resolve_conflict` once and apply its outcome, then SYNC_OK. -/
def startup_pull {D : Type} [DecidableEq D] (env : SyncEnv D) (w0 : World D) :
    SyncRun D :=
  let cfg := w0.syncCfg
  if cfg.remote_url = "" then
    ⟨{ w0 with state := .NO_SYNC }, .NO_SYNC, false, false, false, false, 0, 0⟩
  else if cfg.auto_pull.getD true = false then
    ⟨{ w0 with state := .SYNC_OK }, .SYNC_OK, false, false, false, false, 0, 0⟩
  else if env.reachable = false then
    let r := handle_offline w0
    ⟨r.1, r.2, true, false, false, false, 0, 0⟩
  else if env.ensureOk = false then
    let r := handle_offline w0
    ⟨r.1, r.2, true, true, false, false, 0, 0⟩
  else
    let pr := get_or_prompt w0.cache env.typed
    let passphrase := pr.1
    let prompted := pr.2.2
    let w1 := { w0 with cache := pr.2.1 }
    match env.pullStatus with
    | .OFFLINE =>
        let r := handle_offline w1
        ⟨r.1, r.2, true, true, prompted, true, 0, 0⟩
    | .NO_CHANGE =>
        ⟨{ w1 with state := .SYNC_OK }, .SYNC_OK, true, true, prompted, true, 0, 0⟩
    | _ =>
        match env.pullBytes with
        | none =>
            ⟨{ w1 with state := .SYNC_OK }, .SYNC_OK, true, true, prompted, true, 0, 0⟩
        | some remote_enc =>
            match decrypt_config remote_enc passphrase with
            | .error _ =>
                ⟨{ w1 with state := .SYNC_OFFLINE }, .SYNC_OFFLINE,
                  true, true, prompted, true, 0, 0⟩
            | .ok remote_data =>
                let local_hash := hash_config_file w1.config
                if local_hash = cfg.last_config_hash then
                  let w2 := if env.writeConfigOk then
                      { w1 with config := some (.doc remote_data) } else w1
                  let ub := update_local_enc_backup env w2
                  let w3 := ub.2.1
                  let cfg4 := save_sync_meta w3.syncCfg (hash_config_file w3.config)
                    "ok" env.now
                  let w4 := { w3 with syncCfg := cfg4 }
                  ⟨{ w4 with state := .SYNC_OK }, .SYNC_OK, true, true,
                    prompted || ub.2.2, true, 0, 0⟩
                else
                  match env.choice with
                  | .useRemote =>
                      let w2 := if env.writeConfigOk then
                          { w1 with config := some (.doc remote_data) } else w1
                      let ub := update_local_enc_backup env w2
                      let w3 := ub.2.1
                      let pu := push_to_remote env w3
                      let cfg4 := save_sync_meta w3.syncCfg
                        (hash_config_file w3.config) "conflict_resolved_remote" env.now
                      let w4 := { w3 with syncCfg := cfg4 }
                      ⟨{ w4 with state := .SYNC_OK }, .SYNC_OK, true, true,
                        prompted || ub.2.2, true, 1, pu.2⟩
                  | .useLocal =>
                      let ub := update_local_enc_backup env w1
                      let w3 := ub.2.1
                      let pu := push_to_remote env w3
                      let cfg4 := save_sync_meta w3.syncCfg local_hash
                        "conflict_resolved_local" env.now
                      let w4 := { w3 with syncCfg := cfg4 }
                      ⟨{ w4 with state := .SYNC_OK }, .SYNC_OK, true, true,
                        prompted || ub.2.2, true, 1, pu.2⟩
                  | .abort =>
                      let cfg4 := save_sync_meta w1.syncCfg local_hash
                        "conflict_aborted" env.now
                      let w4 := { w1 with syncCfg := cfg4 }
                      ⟨{ w4 with state := .SYNC_OK }, .SYNC_OK, true, true,
                        prompted, true, 1, 0⟩

/-- `post_save_push` of `sync_manager.py`, translated branch by branch:
return on NO_SYNC; return on empty `remote_url`; refresh the local
encrypted backup via `_update_local_enc_backup` (which prompts when no
passphrase is cached) and return on failure; return when `auto_push` is
false; return when no passphrase is cached (dead after a successful
backup refresh, which always caches one); read the `.enc` file (return on
`OSError`); push — on success persist hash and timestamp and set SYNC_OK,
on failure set SYNC_OFFLINE. -/
def post_save_push {D : Type} [DecidableEq D] (env : SyncEnv D) (w0 : World D) :
    SyncRun D :=
  if w0.state = .NO_SYNC then
    ⟨w0, w0.state, false, false, false, false, 0, 0⟩
  else if w0.syncCfg.remote_url = "" then
    ⟨w0, w0.state, false, false, false, false, 0, 0⟩
  else
    let ub := update_local_enc_backup env w0
    let w1 := ub.2.1
    let prompted := ub.2.2
    if ub.1 = false then
      ⟨w1, w1.state, false, false, prompted, false, 0, 0⟩
    else if w1.syncCfg.auto_push.getD true = false then
      ⟨w1, w1.state, false, false, prompted, false, 0, 0⟩
    else if w1.cache.isNone then
      ⟨w1, w1.state, false, false, prompted, false, 0, 0⟩
    else
      match w1.encBackup with
      | none => ⟨w1, w1.state, false, false, prompted, false, 0, 0⟩
      | some _ =>
          if env.pushOk then
            let w2 := { w1 with
              syncCfg := save_sync_meta w1.syncCfg (hash_config_file w1.config)
                "ok" env.now,
              state := .SYNC_OK }
            ⟨w2, .SYNC_OK, false, false, prompted, false, 0, 1⟩
          else
            ⟨{ w1 with state := .SYNC_OFFLINE }, .SYNC_OFFLINE,
              false, false, prompted, false, 0, 1⟩

/-- Concrete oracle fixture: reachable remote, successful initialization,
a pull returning the envelope of document 2 encrypted under "pw", the user
typing "pw", an abort choice on conflict, and all local writes
succeeding. -/
def envPullDoc2 : SyncEnv Nat :=
  { reachable := true, ensureOk := true, pullStatus := .OK,
    pullBytes := some (encrypt_config 2 "pw" [9] [8]), typed := "pw",
    choice := .abort, now := 42, pushOk := true,
    saltA := [1], ivA := [2], saltB := [3], ivB := [4],
    writeConfigOk := true, writeEncOk := true }

/-- Concrete world fixture: plaintext config holding document 1, no local
encrypted backup, a configured remote with default auto flags and an empty
`last_config_hash`, an empty passphrase cache. -/
def worldEmptyHash : World Nat :=
  { config := some (.doc 1), encBackup := none,
    syncCfg := { remote_url := "git@example:cfg.git", auto_pull := none,
                 auto_push := none, last_config_hash := .empty,
                 last_sync := none, last_sync_status := none },
    cache := none, state := .NO_SYNC }

/-- Concrete world fixture: like `worldEmptyHash` but with
`last_config_hash` recording document 0's serialization — stale, so it
mismatches the current plaintext (document 1). -/
def worldStaleHash : World Nat :=
  { worldEmptyHash with
    syncCfg := { worldEmptyHash.syncCfg with last_config_hash := .digest (.doc 0) } }

/-- C1 (divergence witness): with an empty stored `last_config_hash`, a
readable local plaintext and a decryptable pulled remote document,
`startup_pull` computes a nonempty local digest, finds it different from
the empty stored hash, and therefore invokes the conflict resolver and
leaves the plaintext unchanged — instead of the claimed unconditional
overwrite with the resolver never invoked (which the repository's own test
`test_no_false_conflict_when_last_hash_empty` also expects). -/
theorem startup_pull_empty_hash_invokes_resolver :
    (startup_pull envPullDoc2 worldEmptyHash).resolverCalls = 1
    ∧ (startup_pull envPullDoc2 worldEmptyHash).w.config = some (.doc 1) :=
  ⟨rfl, rfl⟩

/-- C2 counterexample: a concrete conflicted run in which the resolver
returns abort, after which the stored `last_config_hash` is NOT left
unchanged: `_save_sync_meta` has overwritten it with the hash of the
current local plaintext (document 1), so it no longer mismatches and the
conflict does not re-trigger on the next sync. -/
theorem startup_pull_abort_rewrites_hash :
    (startup_pull envPullDoc2 worldStaleHash).w.syncCfg.last_config_hash
      = .digest (.doc 1)
    ∧ (startup_pull envPullDoc2 worldStaleHash).w.syncCfg.last_config_hash
      ≠ worldStaleHash.syncCfg.last_config_hash :=
  ⟨rfl, by decide⟩

/-- C2 amended: whenever the conflict resolver returns abort during
`startup_pull`, neither the local plaintext nor the local encrypted backup
is mutated and `push_remote` is never called, but the stored
`last_config_hash` is updated to the hash of the current local plaintext
and `last_sync` is persisted with status "conflict_aborted" — so the
conflict does not re-trigger on the next sync — and the resulting state is
SYNC_OK. -/
theorem startup_pull_abort_frame {D : Type} [DecidableEq D]
    (env : SyncEnv D) (w : World D) (enc : EncBytes D) (d : D)
    (hurl : w.syncCfg.remote_url ≠ "")
    (hap : w.syncCfg.auto_pull.getD true = true)
    (hre : env.reachable = true)
    (hen : env.ensureOk = true)
    (hst : env.pullStatus = .OK)
    (hby : env.pullBytes = some enc)
    (hde : decrypt_config enc (get_or_prompt w.cache env.typed).1 = .ok d)
    (hha : hash_config_file w.config ≠ w.syncCfg.last_config_hash)
    (hch : env.choice = .abort) :
    (startup_pull env w).w.config = w.config
    ∧ (startup_pull env w).w.encBackup = w.encBackup
    ∧ (startup_pull env w).pushCalls = 0
    ∧ (startup_pull env w).w.syncCfg.last_config_hash = hash_config_file w.config
    ∧ (startup_pull env w).w.syncCfg.last_sync = some env.now
    ∧ (startup_pull env w).w.syncCfg.last_sync_status = some "conflict_aborted"
    ∧ (startup_pull env w).ret = .SYNC_OK := by
  simp [startup_pull, hurl, hap, hre, hen, hst, hby, hde, hha, hch, save_sync_meta]

/-- C2 amended, witness: the abort frame condition at the concrete stale
fixture. -/
theorem startup_pull_abort_frame_witness :
    (startup_pull envPullDoc2 worldStaleHash).w.config = worldStaleHash.config
    ∧ (startup_pull envPullDoc2 worldStaleHash).w.encBackup = worldStaleHash.encBackup
    ∧ (startup_pull envPullDoc2 worldStaleHash).pushCalls = 0
    ∧ (startup_pull envPullDoc2 worldStaleHash).w.syncCfg.last_config_hash
      = hash_config_file worldStaleHash.config
    ∧ (startup_pull envPullDoc2 worldStaleHash).w.syncCfg.last_sync
      = some envPullDoc2.now
    ∧ (startup_pull envPullDoc2 worldStaleHash).w.syncCfg.last_sync_status
      = some "conflict_aborted"
    ∧ (startup_pull envPullDoc2 worldStaleHash).ret = .SYNC_OK :=
  startup_pull_abort_frame envPullDoc2 worldStaleHash
    (encrypt_config 2 "pw" [9] [8]) 2
    (by decide) rfl rfl rfl rfl rfl
    (decrypt_config_encrypt_config_roundtrip 2 "pw" [9] [8])
    (by decide) rfl

/-- C10: when a remote is configured but `auto_pull` is false,
`startup_pull` returns SYNC_OK immediately: the reachability probe,
repository initialization, passphrase prompt and pull never happen, no
resolver or push runs, and the plaintext, backup, profile and cache are
all left exactly as they were. -/
theorem startup_pull_auto_pull_disabled {D : Type} [DecidableEq D]
    (env : SyncEnv D) (w : World D)
    (hurl : w.syncCfg.remote_url ≠ "")
    (hap : w.syncCfg.auto_pull = some false) :
    startup_pull env w =
      ⟨{ w with state := .SYNC_OK }, .SYNC_OK, false, false, false, false, 0, 0⟩ := by
  simp [startup_pull, hurl, hap]

/-- C10 witness: the immediate SYNC_OK return at a concrete world with
`auto_pull` disabled. -/
theorem startup_pull_auto_pull_disabled_witness :
    startup_pull envPullDoc2
        { worldEmptyHash with
          syncCfg := { worldEmptyHash.syncCfg with auto_pull := some false } } =
      ⟨{ worldEmptyHash with
          syncCfg := { worldEmptyHash.syncCfg with auto_pull := some false },
          state := .SYNC_OK }, .SYNC_OK, false, false, false, false, 0, 0⟩ :=
  startup_pull_auto_pull_disabled envPullDoc2
    { worldEmptyHash with
      syncCfg := { worldEmptyHash.syncCfg with auto_pull := some false } }
    (by decide) rfl

/-- C6: when pulling is enabled and the remote is unreachable,
`startup_pull` ends in SYNC_OFFLINE exactly when the local `.enc` backup
file exists, and in LOCAL_ONLY when it does not. -/
theorem startup_pull_unreachable_fallback {D : Type} [DecidableEq D]
    (env : SyncEnv D) (w : World D)
    (hurl : w.syncCfg.remote_url ≠ "")
    (hap : w.syncCfg.auto_pull.getD true = true)
    (hre : env.reachable = false) :
    (startup_pull env w).ret =
      (if w.encBackup.isSome then SyncState.SYNC_OFFLINE else SyncState.LOCAL_ONLY) := by
  by_cases hbk : w.encBackup.isSome
  · simp [startup_pull, hurl, hap, hre, handle_offline, hbk]
  · simp [startup_pull, hurl, hap, hre, handle_offline, hbk]

/-- C6 witness: an unreachable remote with a backup present yields
SYNC_OFFLINE, and with no backup yields LOCAL_ONLY, at concrete worlds. -/
theorem startup_pull_unreachable_fallback_witness :
    (startup_pull { envPullDoc2 with reachable := false }
        { worldEmptyHash with encBackup := some (.invalid 0) }).ret
      = .SYNC_OFFLINE
    ∧ (startup_pull { envPullDoc2 with reachable := false } worldEmptyHash).ret
      = .LOCAL_ONLY := by
  constructor
  · have h := startup_pull_unreachable_fallback
      { envPullDoc2 with reachable := false }
      { worldEmptyHash with encBackup := some (.invalid 0) }
      (by decide) rfl rfl
    simpa using h
  · have h := startup_pull_unreachable_fallback
      { envPullDoc2 with reachable := false } worldEmptyHash
      (by decide) rfl rfl
    simpa using h

/-- C4: when the pulled remote bytes fail AEAD authentication (wrong
passphrase) and a valid local `.enc` backup exists, `startup_pull` ends in
SYNC_OFFLINE with the plaintext config left untouched; the `InvalidTag`
exception is absorbed by the `except Exception` handler, so the run
produces a normal result and no exception escapes. -/
theorem startup_pull_auth_error_offline {D : Type} [DecidableEq D]
    (env : SyncEnv D) (w : World D) (enc : EncBytes D)
    (hurl : w.syncCfg.remote_url ≠ "")
    (hap : w.syncCfg.auto_pull.getD true = true)
    (hre : env.reachable = true)
    (hen : env.ensureOk = true)
    (hst : env.pullStatus = .OK)
    (hby : env.pullBytes = some enc)
    (hde : decrypt_config enc (get_or_prompt w.cache env.typed).1 = .error .authError)
    (_hbk : w.encBackup.isSome) :
    (startup_pull env w).ret = .SYNC_OFFLINE
    ∧ (startup_pull env w).w.config = w.config
    ∧ (startup_pull env w).w.encBackup = w.encBackup := by
  simp [startup_pull, hurl, hap, hre, hen, hst, hby, hde]

/-- C4 witness: a concrete wrong-passphrase run — the remote envelope was
encrypted under "right" and the user types "pw" — against a world holding
a valid backup envelope. -/
theorem startup_pull_auth_error_offline_witness :
    (startup_pull { envPullDoc2 with pullBytes := some (encrypt_config 2 "right" [9] [8]) }
        { worldEmptyHash with encBackup := some (encrypt_config 1 "pw" [1] [2]) }).ret
      = .SYNC_OFFLINE
    ∧ (startup_pull { envPullDoc2 with pullBytes := some (encrypt_config 2 "right" [9] [8]) }
        { worldEmptyHash with encBackup := some (encrypt_config 1 "pw" [1] [2]) }).w.config
      = { worldEmptyHash with encBackup := some (encrypt_config 1 "pw" [1] [2]) }.config
    ∧ (startup_pull { envPullDoc2 with pullBytes := some (encrypt_config 2 "right" [9] [8]) }
        { worldEmptyHash with encBackup := some (encrypt_config 1 "pw" [1] [2]) }).w.encBackup
      = { worldEmptyHash with encBackup := some (encrypt_config 1 "pw" [1] [2]) }.encBackup :=
  startup_pull_auth_error_offline
    { envPullDoc2 with pullBytes := some (encrypt_config 2 "right" [9] [8]) }
    { worldEmptyHash with encBackup := some (encrypt_config 1 "pw" [1] [2]) }
    (encrypt_config 2 "right" [9] [8])
    (by decide) rfl rfl rfl rfl rfl (by decide) rfl

/-- C9: every decryption failure of the pulled bytes — format error,
authentication error, or the uncaught-in-`decrypt_config` attribute error,
all absorbed by the `except Exception` handler — sends `startup_pull` to
SYNC_OFFLINE and leaves the plaintext config, the local encrypted backup
and the sync metadata (including `last_config_hash` and `last_sync`)
unchanged, with no resolver or push call; this holds even when no local
backup exists, so the branch never yields LOCAL_ONLY. -/
theorem startup_pull_decrypt_failure_frame {D : Type} [DecidableEq D]
    (env : SyncEnv D) (w : World D) (enc : EncBytes D) (e : CryptoErr)
    (hurl : w.syncCfg.remote_url ≠ "")
    (hap : w.syncCfg.auto_pull.getD true = true)
    (hre : env.reachable = true)
    (hen : env.ensureOk = true)
    (hst : env.pullStatus = .OK)
    (hby : env.pullBytes = some enc)
    (hde : decrypt_config enc (get_or_prompt w.cache env.typed).1 = .error e) :
    (startup_pull env w).ret = .SYNC_OFFLINE
    ∧ (startup_pull env w).ret ≠ .LOCAL_ONLY
    ∧ (startup_pull env w).w.config = w.config
    ∧ (startup_pull env w).w.encBackup = w.encBackup
    ∧ (startup_pull env w).w.syncCfg = w.syncCfg
    ∧ (startup_pull env w).resolverCalls = 0
    ∧ (startup_pull env w).pushCalls = 0 := by
  simp [startup_pull, hurl, hap, hre, hen, hst, hby, hde]

/-- C9 witness: a concrete format-failure run (the pulled bytes are not
valid JSON) against a world with no backup at all still yields
SYNC_OFFLINE, not LOCAL_ONLY, and changes nothing. -/
theorem startup_pull_decrypt_failure_frame_witness :
    (startup_pull { envPullDoc2 with pullBytes := some (.invalid 3) } worldEmptyHash).ret
      = .SYNC_OFFLINE
    ∧ (startup_pull { envPullDoc2 with pullBytes := some (.invalid 3) } worldEmptyHash).ret
      ≠ .LOCAL_ONLY
    ∧ (startup_pull { envPullDoc2 with pullBytes := some (.invalid 3) } worldEmptyHash).w.config
      = worldEmptyHash.config
    ∧ (startup_pull { envPullDoc2 with pullBytes := some (.invalid 3) } worldEmptyHash).w.encBackup
      = worldEmptyHash.encBackup
    ∧ (startup_pull { envPullDoc2 with pullBytes := some (.invalid 3) } worldEmptyHash).w.syncCfg
      = worldEmptyHash.syncCfg
    ∧ (startup_pull { envPullDoc2 with pullBytes := some (.invalid 3) } worldEmptyHash).resolverCalls
      = 0
    ∧ (startup_pull { envPullDoc2 with pullBytes := some (.invalid 3) } worldEmptyHash).pushCalls
      = 0 :=
  startup_pull_decrypt_failure_frame
    { envPullDoc2 with pullBytes := some (.invalid 3) } worldEmptyHash
    (.invalid 3) (.formatError "Invalid encrypted config format")
    (by decide) rfl rfl rfl rfl rfl rfl

/-- C5 (divergence witness): with a configured remote, `auto_push` at its
default, and NO cached passphrase, `post_save_push` does not no-op: the
backup refresh calls `get_or_prompt`, which synchronously prompts the user
and caches what they type, after which the supposedly guarding
`has_passphrase()` check (line 154, with its own comment "No passphrase in
cache, skip silent push") can no longer fire and `push_remote` is
invoked. -/
theorem post_save_push_prompts_without_cached_passphrase :
    (post_save_push envPullDoc2 { worldEmptyHash with state := .SYNC_OK }).prompted = true
    ∧ (post_save_push envPullDoc2 { worldEmptyHash with state := .SYNC_OK }).pushCalls = 1 :=
  ⟨rfl, rfl⟩

end Sshmenuc
